import Mathlib

/-!
Verification development for the domino-environment-automation repository.

The definitions below are a shallow embedding of src/scripts/main.py.
Pure string manipulation from the Python code (str.title, str.upper, the
24-hex-digit regular expression) is translated to executable Lean functions;
the hashlib sha256 digest used by compute_config_file_hash is implemented
concretely; the remote Domino platform, which the repository only touches
through its client library, is modelled as an explicit state value
(DominoState) with every remote call recorded in a trace (GatewayCall).
YAML documents are modelled as already-parsed structured values (ConfigDoc)
with Option fields standing for absent keys, and Python truthiness of the
read values is made explicit via truthyStr and truthyList.  Python
exceptions are modelled with an err field threaded through each step
(RunOut), mirroring the single try and except boundary in
process_single_environment.
-/

/-! Section: Python string helpers -/

/-- Python truthiness filter for an optional string value: a missing key and
an empty string are both falsy. -/
def truthyStr : Option String → Option String
  | some s => if s = "" then none else some s
  | none => none

/-- Python truthiness filter for an optional list value: a missing key and an
empty list are both falsy. -/
def truthyList : Option (List String) → Option (List String)
  | some l => if l = [] then none else some l
  | none => none

/-- One character of Python str.title: a cased character is uppercased when
the previous character was not cased, lowercased otherwise. -/
def titleChar (prevCased : Bool) (c : Char) : Char :=
  if prevCased then c.toLower else c.toUpper

/-- Helper walking the character list for pyTitle, tracking whether the
previous character was cased (an ASCII letter). -/
def pyTitleAux : Bool → List Char → List Char
  | _, [] => []
  | prev, c :: cs => titleChar prev c :: pyTitleAux c.isAlpha cs

/-- Model of Python str.title restricted to ASCII, as used by
get_environment_visibility and get_supported_clusters. -/
def pyTitle (s : String) : String := String.mk (pyTitleAux false s.data)

/-- Model of Python str.upper restricted to ASCII. -/
def pyUpper (s : String) : String := String.mk (s.data.map Char.toUpper)

/-- One ASCII hexadecimal digit, as matched by the character class
[0-9a-fA-F] in the organization owner id pattern. -/
def isHexDigitChar (c : Char) : Bool :=
  c.isDigit || (97 ≤ c.toNat && c.toNat ≤ 102) || (65 ≤ c.toNat && c.toNat ≤ 70)

/-- Exactly twenty-four hexadecimal digits: the well-formed organization
owner id format named by the spec. -/
def isHex24 (s : String) : Bool :=
  s.data.length = 24 && s.data.all isHexDigitChar

/-- Model of re.search with the anchored pattern of twenty-four hex digits
from get_environment_visibility: the dollar anchor also matches just before
one trailing newline, so a match means the string is twenty-four hex digits
optionally followed by a single final newline. -/
def regexSearchHex24 (s : String) : Bool :=
  isHex24 s ||
    (s.data.getLastD (Char.ofNat 0) = Char.ofNat 10 &&
      isHex24 (String.mk s.data.dropLast))

/-! Section: SHA-256, the digest behind compute_config_file_hash -/

/-- Truncation to a 32-bit word. -/
def w32 (n : Nat) : Nat := n % 4294967296

/-- Rotate a 32-bit word right by k bits. -/
def rotr32 (k x : Nat) : Nat := (x >>> k) ||| w32 (x <<< (32 - k))

/-- SHA-256 big Sigma-0. -/
def bigSigma0 (x : Nat) : Nat := rotr32 2 x ^^^ rotr32 13 x ^^^ rotr32 22 x

/-- SHA-256 big Sigma-1. -/
def bigSigma1 (x : Nat) : Nat := rotr32 6 x ^^^ rotr32 11 x ^^^ rotr32 25 x

/-- SHA-256 small sigma-0. -/
def smallSigma0 (x : Nat) : Nat := rotr32 7 x ^^^ rotr32 18 x ^^^ (x >>> 3)

/-- SHA-256 small sigma-1. -/
def smallSigma1 (x : Nat) : Nat := rotr32 17 x ^^^ rotr32 19 x ^^^ (x >>> 10)

/-- SHA-256 choice function. -/
def chF (x y z : Nat) : Nat := (x &&& y) ^^^ ((x ^^^ 4294967295) &&& z)

/-- SHA-256 majority function. -/
def majF (x y z : Nat) : Nat := (x &&& y) ^^^ (x &&& z) ^^^ (y &&& z)

/-- SHA-256 round constants. -/
def sha256K : List Nat :=
  [1116352408, 1899447441, 3049323471, 3921009573, 961987163,
   1508970993, 2453635748, 2870763221, 3624381080, 310598401,
   607225278, 1426881987, 1925078388, 2162078206, 2614888103,
   3248222580, 3835390401, 4022224774, 264347078, 604807628,
   770255983, 1249150122, 1555081692, 1996064986, 2554220882,
   2821834349, 2952996808, 3210313671, 3336571891, 3584528711,
   113926993, 338241895, 666307205, 773529912, 1294757372,
   1396182291, 1695183700, 1986661051, 2177026350, 2456956037,
   2730485921, 2820302411, 3259730800, 3345764771, 3516065817,
   3600352804, 4094571909, 275423344, 430227734, 506948616,
   659060556, 883997877, 958139571, 1322822218, 1537002063,
   1747873779, 1955562222, 2024104815, 2227730452, 2361852424,
   2428436474, 2756734187, 3204031479, 3329325298]

/-- SHA-256 initial hash state. -/
def sha256H0 : List Nat :=
  [1779033703, 3144134277, 1013904242,
   2773480762, 1359893119, 2600822924,
   528734635, 1541459225]

/-- Big-endian byte expansion of a number into k bytes. -/
def beBytes : Nat → Nat → List Nat
  | 0, _ => []
  | k + 1, n => beBytes k (n / 256) ++ [n % 256]

/-- SHA-256 message padding: append 0x80, zero bytes up to 56 mod 64, then
the bit length as eight big-endian bytes. -/
def padMessage (msg : List Nat) : List Nat :=
  let len := msg.length
  let k := (119 - len % 64) % 64
  msg ++ [0x80] ++ List.replicate k 0 ++ beBytes 8 (len * 8)

/-- Group a byte list into big-endian 32-bit words. -/
def bytesToWords : List Nat → List Nat
  | b0 :: b1 :: b2 :: b3 :: rest => (((b0 * 256 + b1) * 256 + b2) * 256 + b3) :: bytesToWords rest
  | _ => []

/-- Fuel-driven chunking helper. -/
def chunksOfAux (n : Nat) : Nat → List Nat → List (List Nat)
  | 0, _ => []
  | _, [] => []
  | fuel + 1, l => l.take n :: chunksOfAux n fuel (l.drop n)

/-- Split a byte list into consecutive chunks of at most n bytes. -/
def chunksOf (n : Nat) (l : List Nat) : List (List Nat) := chunksOfAux n l.length l

/-- Extend the message schedule by one word; the accumulator holds the
schedule so far with the most recent word first. -/
def scheduleStep (accRev : List Nat) : List Nat :=
  (w32 (smallSigma1 (accRev.getD 1 0) + accRev.getD 6 0 +
        smallSigma0 (accRev.getD 14 0) + accRev.getD 15 0)) :: accRev

/-- SHA-256 message schedule: the 16 block words extended to 64 words. -/
def schedule (block16 : List Nat) : List Nat :=
  ((List.range 48).foldl (fun acc _ => scheduleStep acc) block16.reverse).reverse

/-- One SHA-256 compression round over the eight-word working state. -/
def compressStep (s : List Nat) (kw : Nat × Nat) : List Nat :=
  match s with
  | [a, b, c, d, e, f, g, h] =>
    let t1 := w32 (h + bigSigma1 e + chF e f g + kw.1 + kw.2)
    let t2 := w32 (bigSigma0 a + majF a b c)
    [w32 (t1 + t2), a, b, c, w32 (d + t1), e, f, g]
  | other => other

/-- Process one 64-byte block into the running hash state. -/
def processBlock (hs : List Nat) (block : List Nat) : List Nat :=
  let s := (sha256K.zip (schedule (bytesToWords block))).foldl compressStep hs
  (hs.zip s).map (fun p => w32 (p.1 + p.2))

/-- SHA-256 digest of a byte list, as a list of 32 bytes. -/
def sha256Bytes (msg : List Nat) : List Nat :=
  let hs := (chunksOf 64 (padMessage msg)).foldl processBlock sha256H0
  hs.foldr (fun h acc => beBytes 4 h ++ acc) []

/-- Lowercase hexadecimal digit character for a value below 16. -/
def hexDigitChar (n : Nat) : Char := if n < 10 then Char.ofNat (48 + n) else Char.ofNat (87 + n)

/-- Two lowercase hex characters for one byte. -/
def byteToHex (b : Nat) : List Char := [hexDigitChar (b / 16), hexDigitChar (b % 16)]

/-- Lowercase hex digest string of a byte list, as hashlib hexdigest
produces. -/
def sha256hex (msg : List Nat) : String := String.mk (((sha256Bytes msg).map byteToHex).flatten)

/-- Model of EnvironmentConfig.compute_config_file_hash on the bytes of the
configuration file: the file is read in chunks of 8192 bytes, each chunk fed
to the running sha256 state (an update is an append to the hashed stream),
and the lowercase hex digest is returned. -/
def compute_config_file_hash (fileBytes : List Nat) : String :=
  sha256hex ((chunksOf 8192 fileBytes).foldl (fun acc chunk => acc ++ chunk) [])

/-- The same computation addressed through a file system (a map from path to
byte content) and the path stored in environment_config_location, mirroring
that the method opens the file at that path. -/
def compute_config_file_hash_at (fs : String → List Nat) (loc : String) : String :=
  compute_config_file_hash (fs loc)

/-! Section: Declaration documents and the in-memory configuration -/

/-- One httpProxy mapping inside a pluggableWorkspaceTools entry, as read
from the YAML document; every key may be absent. -/
structure ProxyDoc where
  port : Option Nat := none
  internalPath : Option String := none
  requireSubdomain : Option Bool := none
  rewrite : Option Bool := none
deriving DecidableEq

/-- One pluggableWorkspaceTools entry as read from the YAML document. -/
structure ToolDoc where
  title : Option String := none
  iconUrl : Option String := none
  start : Option (List String) := none
  supportedFileExtensions : Option (List String) := none
  httpProxy : Option ProxyDoc := none
deriving DecidableEq

/-- The YAML declaration document for one environment, restricted to the
keys that drive the control flow under verification; absent keys are none.
Payload-only keys (image, the four lifecycle scripts, environmentVariables,
skipCache, summary, useVpn, description) are copied verbatim into the
gateway payload by the source and are not modelled field by field. -/
structure ConfigDoc where
  name : Option String := none
  tags : Option (List String) := none
  isRestricted : Option Bool := none
  organizationOwnerId : Option String := none
  visibility : Option String := none
  supportedClusters : Option (List String) := none
  pluggableWorkspaceTools : Option (List (String × ToolDoc)) := none
deriving DecidableEq

/-- The ProxyConfig dataclass: port is the only required constructor
argument. -/
structure ProxyConfig where
  port : Nat
  internalPath : Option String
  requireSubdomain : Bool
  rewrite : Bool
deriving DecidableEq

/-- One entry of the workspace_tools list assembled by
build_workspace_tools; proxyPort is none where the source stores an empty
string for a falsy port. -/
structure WorkspaceToolOut where
  iconUrl : String
  name : String
  proxyInternalPath : String
  proxyPort : Option Nat
  proxyRequireSubdomain : Bool
  proxyRewrite : Bool
  startScripts : List String
  supportedFileExtensions : List String
  title : String
deriving DecidableEq

/-- The mutable EnvironmentConfig object, restricted to the fields the
verified control flow reads or writes; defaults follow the constructor. -/
structure Config where
  environment_config_location : String
  environment_id : String := ""
  name : String := ""
  tags : List String := []
  is_restricted : Bool := true
  organization_owner_id : String := ""
  visibility : String := "Private"
  config_file_hash : String := ""
  supported_clusters : List String := []
  workspace_tools : List WorkspaceToolOut := []
deriving DecidableEq

/-- A freshly constructed EnvironmentConfig for a configuration file
location, as process_single_environment builds it. -/
def initial_config (loc : String) : Config := { environment_config_location := loc }

/-! Section: The remote platform and its gateway -/

/-- One remote environment resource as observed through get_environment and
environments_list. -/
structure RemoteEnv where
  id : String
  name : String
  activeRevisionTags : List String
  selectedRevision : Option String
  restrictedRevision : Option String
deriving DecidableEq

/-- The remote platform state: its environment registry plus counters the
model uses to mint fresh server-assigned ids. -/
structure DominoState where
  environments : List RemoteEnv
  nextId : Nat := 0
  nextRev : Nat := 0
deriving DecidableEq

/-- One call crossing the gateway boundary, with the arguments the claims
talk about. -/
inductive GatewayCall where
  | environmentsList
  | createEnvironment (name visibility organizationOwnerId : String)
  | getEnvironment (envId : String)
  | createEnvironmentRevision (envId : String) (tags : List String)
  | restrictEnvironmentRevision (envId revisionId : String)
  | archiveEnvironment (envId : String)
deriving DecidableEq

/-- A gateway call that changes remote state: create, create-revision,
restrict, archive. -/
def isMutating : GatewayCall → Bool
  | .createEnvironment _ _ _ => true
  | .createEnvironmentRevision _ _ => true
  | .restrictEnvironmentRevision _ _ => true
  | .archiveEnvironment _ => true
  | _ => false

/-- A restrict-revision gateway call. -/
def isRestrictCall : GatewayCall → Bool
  | .restrictEnvironmentRevision _ _ => true
  | _ => false

/-- First remote environment with the given name, in listing order, as
check_environment_exists scans environments_list. -/
def findByName (st : DominoState) (nm : String) : Option RemoteEnv :=
  st.environments.find? (fun e => e.name == nm)

/-- Remote environment addressed by id, as get_environment resolves it. -/
def findById (st : DominoState) (envId : String) : Option RemoteEnv :=
  st.environments.find? (fun e => e.id == envId)

/-- Model of the remote platform effect of create_environment: a new
resource appears under a fresh server-assigned id, its first revision built
from the submitted payload becomes the selected revision, and it carries the
submitted tags; this is the external collaborator the spec specifies only at
the interface boundary. -/
def applyCreateEnvironment (st : DominoState) (c : Config) : DominoState :=
  { environments := st.environments ++
      [{ id := "env-" ++ toString st.nextId, name := c.name,
         activeRevisionTags := c.tags,
         selectedRevision := some ("rev-" ++ toString st.nextRev),
         restrictedRevision := none }],
    nextId := st.nextId + 1, nextRev := st.nextRev + 1 }

/-- Apply an update to the remote environment with the given id. -/
def updateEnvById (st : DominoState) (envId : String) (f : RemoteEnv → RemoteEnv) : DominoState :=
  { st with environments := st.environments.map (fun e => if e.id == envId then f e else e) }

/-- Model of the remote platform effect of create_environment_revision: the
new revision carries the submitted tags, becomes selected, and joins the
active revisions. -/
def applyCreateRevision (st : DominoState) (c : Config) : DominoState :=
  let st2 := updateEnvById st c.environment_id (fun e =>
    { e with activeRevisionTags := e.activeRevisionTags ++ c.tags,
             selectedRevision := some ("rev-" ++ toString st.nextRev) })
  { st2 with nextRev := st.nextRev + 1 }

/-- Model of the remote platform effect of restrict_environment_revision:
the named revision becomes the restriction marker. -/
def applyRestrict (st : DominoState) (envId revId : String) : DominoState :=
  updateEnvById st envId (fun e => { e with restrictedRevision := some revId })

/-! Section: Exceptions, logs and sequencing -/

/-- A Python exception escaping a step: the KeyError and TypeError raised by
build_workspace_tools, or a failing remote call. -/
inductive PyErr where
  | keyError (key : String)
  | typeError (message : String)
  | gatewayError (message : String)
deriving DecidableEq

/-- Structured log messages, one constructor per logging statement the
claims mention, carrying the data interpolated at the call site. -/
inductive LogMsg where
  | errorNoOrgOwner
  | errorOwnerIdNotRecognised (ownerId : String)
  | warnInvalidVisibility (loc : String)
  | warnInvalidClusters (invalid : List String)
  | errorNameRequired
  | infoEnvExists (name envId : String)
  | infoEnvNotExists (name : String)
  | infoFileUnchanged
  | debugSelectedRevision (revId : String)
  | debugRestricting
  | warnNoConfigFile (env : String)
  | errorFailedProcessing (env : String) (cause : PyErr)
  | errorNoEnvironments
  | infoBuilding
deriving DecidableEq

/-- The outcome of running one or more steps: the mutated config object, the
remote state, the gateway calls issued so far, the log lines emitted, and
the exception escaping the steps, if any. -/
structure RunOut where
  cfg : Config
  st : DominoState
  calls : List GatewayCall
  logs : List LogMsg
  err : Option PyErr
deriving DecidableEq

/-- Sequence a further step after a run, skipping it when an exception is
already in flight, and accumulating calls and logs. -/
def RunOut.thenRun (r : RunOut) (f : Config → DominoState → RunOut) : RunOut :=
  match r.err with
  | some _ => r
  | none =>
    let r2 := f r.cfg r.st
    { cfg := r2.cfg, st := r2.st, calls := r.calls ++ r2.calls,
      logs := r.logs ++ r2.logs, err := r2.err }

/-! Section: Config Loader methods -/

/-- The three visibility values the loader accepts. -/
def possible_visibility_types : List String := ["Global", "Organization", "Private"]

/-- Model of EnvironmentConfig.get_environment_visibility: title-case the
raw visibility defaulting to Private, attempt the Organisation spelling
normalization (comparing the uppercased value against the title-cased
British spelling, as the source does), then validate the organization owner
id, and finally fall back to Private when the resolved value is not an
allowed one; the two error branches return early from the method, skipping
the final fallback check. -/
def get_environment_visibility (doc : ConfigDoc) (c : Config) : Config × List LogMsg :=
  let v0 := match truthyStr doc.visibility with
    | some v => pyTitle v
    | none => "Private"
  let v1 := if pyUpper v0 = "Organisation" then "Organization" else v0
  if v1 = "Organization" && (truthyStr doc.organizationOwnerId).isNone then
    ({ c with visibility := v1 }, [LogMsg.errorNoOrgOwner])
  else
    match truthyStr doc.organizationOwnerId with
    | some oid =>
      let c1 := { c with visibility := v1, organization_owner_id := oid }
      if regexSearchHex24 oid then
        let c2 := { c1 with visibility := "Private" }
        if possible_visibility_types.contains c2.visibility then (c2, [])
        else ({ c2 with visibility := "Private" },
              [LogMsg.warnInvalidVisibility c2.environment_config_location])
      else (c1, [LogMsg.errorOwnerIdNotRecognised oid])
    | none =>
      let c1 := { c with visibility := v1 }
      if possible_visibility_types.contains c1.visibility then (c1, [])
      else ({ c1 with visibility := "Private" },
            [LogMsg.warnInvalidVisibility c1.environment_config_location])

/-- The four cluster types the loader accepts. -/
def possible_cluster_types : List String := ["Spark", "Ray", "Dask", "Mpi"]

/-- Model of EnvironmentConfig.get_supported_clusters: title-case every
declared entry; when the list is non-empty and contains entries outside the
accepted set, warn naming those entries and keep only accepted ones, in
declared order, without deduplication. -/
def get_supported_clusters (doc : ConfigDoc) (c : Config) : Config × List LogMsg :=
  let scs := ((truthyList doc.supportedClusters).getD []).map pyTitle
  if scs.isEmpty then ({ c with supported_clusters := scs }, [])
  else
    let invalid := scs.filter (fun sc => !(possible_cluster_types.contains sc))
    if invalid.isEmpty then ({ c with supported_clusters := scs }, [])
    else ({ c with supported_clusters := scs.filter (fun sc => possible_cluster_types.contains sc) },
          [LogMsg.warnInvalidClusters invalid])

/-- Model of constructing the ProxyConfig dataclass from the httpProxy
mapping: a missing port is a TypeError, the optional fields default. -/
def mkProxyConfig (p : ProxyDoc) : Except PyErr ProxyConfig :=
  match p.port with
  | none => Except.error (PyErr.typeError "ProxyConfig missing required argument port")
  | some port =>
    Except.ok { port := port, internalPath := p.internalPath,
                requireSubdomain := p.requireSubdomain.getD false,
                rewrite := p.rewrite.getD false }

/-- Model of one iteration of build_workspace_tools: the httpProxy mapping
is materialized first, then title, iconUrl and start are accessed as
required keys (a missing one raises KeyError), and the output dictionary is
assembled with Python truthiness defaults. -/
def build_one_workspace_tool (nm : String) (t : ToolDoc) : Except PyErr WorkspaceToolOut := do
  let http_proxy ← match t.httpProxy with
    | some p => (mkProxyConfig p).map some
    | none => Except.ok none
  let title ← match t.title with
    | some v => Except.ok v
    | none => Except.error (PyErr.keyError "title")
  let iconUrl ← match t.iconUrl with
    | some v => Except.ok v
    | none => Except.error (PyErr.keyError "iconUrl")
  let start ← match t.start with
    | some v => Except.ok v
    | none => Except.error (PyErr.keyError "start")
  Except.ok
    { iconUrl := if iconUrl = "" then "" else iconUrl,
      name := nm,
      proxyInternalPath := match http_proxy with
        | some pc => (pc.internalPath.getD "")
        | none => "",
      proxyPort := match http_proxy with
        | some pc => if pc.port = 0 then none else some pc.port
        | none => none,
      proxyRequireSubdomain := match http_proxy with
        | some pc => pc.requireSubdomain
        | none => false,
      proxyRewrite := match http_proxy with
        | some pc => pc.rewrite
        | none => false,
      startScripts := start,
      supportedFileExtensions := t.supportedFileExtensions.getD [],
      title := if title = "" then nm else title }

/-- Fold build_one_workspace_tool over the pluggableWorkspaceTools entries,
propagating the first exception. -/
def build_workspace_tools_list : List (String × ToolDoc) → Except PyErr (List WorkspaceToolOut)
  | [] => Except.ok []
  | (nm, t) :: rest => do
    let w ← build_one_workspace_tool nm t
    let ws ← build_workspace_tools_list rest
    Except.ok (w :: ws)

/-- Model of EnvironmentConfig.build_workspace_tools. -/
def build_workspace_tools (doc : ConfigDoc) (c : Config) : Except PyErr Config :=
  match build_workspace_tools_list (doc.pluggableWorkspaceTools.getD []) with
  | Except.ok ws => Except.ok { c with workspace_tools := ws }
  | Except.error e => Except.error e

/-- The scalar field assignments at the top of
EnvironmentConfig.parse_config_file, with Python truthiness defaults. -/
def load_scalar_fields (doc : ConfigDoc) (c : Config) : Config :=
  { c with
    name := (truthyStr doc.name).getD "",
    tags := (truthyList doc.tags).getD [],
    is_restricted := doc.isRestricted = some true,
    organization_owner_id := (truthyStr doc.organizationOwnerId).getD "" }

/-- Model of EnvironmentConfig.parse_config_file: read the scalar fields
with Python truthiness defaults, run visibility and cluster resolution and
workspace tool assembly, compute the content fingerprint of the raw file
bytes and append it to the tag list.  No gateway call is made. -/
def parse_config_file (doc : ConfigDoc) (fileBytes : List Nat) (c : Config) (st : DominoState) :
    RunOut :=
  let c1 := load_scalar_fields doc c
  let p1 := get_environment_visibility doc c1
  let p2 := get_supported_clusters doc p1.1
  match build_workspace_tools doc p2.1 with
  | Except.error e =>
    { cfg := p2.1, st := st, calls := [], logs := p1.2 ++ p2.2, err := some e }
  | Except.ok c4 =>
    let c5 := { c4 with config_file_hash := compute_config_file_hash fileBytes }
    let c6 := { c5 with tags := c5.tags ++ [c5.config_file_hash] }
    { cfg := c6, st := st, calls := [], logs := p1.2 ++ p2.2, err := none }

/-! Section: Reconciliation Engine methods -/

/-- Model of EnvironmentConfig.check_environment_exists: list the remote
environments and record the id of the first one whose name matches. -/
def check_environment_exists (c : Config) (st : DominoState) : RunOut :=
  match findByName st c.name with
  | some e =>
    { cfg := { c with environment_id := e.id }, st := st,
      calls := [GatewayCall.environmentsList], logs := [], err := none }
  | none =>
    { cfg := c, st := st, calls := [GatewayCall.environmentsList], logs := [], err := none }

/-- Model of EnvironmentConfig.create_environment: re-parse the
configuration file, submit the create call with the declaration payload, and
re-list to recover the assigned id. -/
def create_environment (doc : ConfigDoc) (fileBytes : List Nat) (c : Config) (st : DominoState) :
    RunOut :=
  ((parse_config_file doc fileBytes c st).thenRun (fun c2 st2 =>
    { cfg := c2, st := applyCreateEnvironment st2 c2,
      calls := [GatewayCall.createEnvironment c2.name c2.visibility c2.organization_owner_id],
      logs := [], err := none })).thenRun check_environment_exists

/-- Model of EnvironmentConfig.create_environment_if_not_exist: an empty
name is a logged error with no call; otherwise the existence lookup decides
between reporting the existing id and creating the environment. -/
def create_environment_if_not_exist (doc : ConfigDoc) (fileBytes : List Nat)
    (c : Config) (st : DominoState) : RunOut :=
  if c.name = "" then
    { cfg := c, st := st, calls := [], logs := [LogMsg.errorNameRequired], err := none }
  else
    (check_environment_exists c st).thenRun (fun c2 st2 =>
      if c2.environment_id ≠ "" then
        { cfg := c2, st := st2, calls := [],
          logs := [LogMsg.infoEnvExists c2.name c2.environment_id], err := none }
      else
        ({ cfg := c2, st := st2, calls := [],
           logs := [LogMsg.infoEnvNotExists c2.name], err := none } : RunOut).thenRun
          (create_environment doc fileBytes))

/-- Model of EnvironmentConfig.get_latest_revision: fetch the remote
resource and report whether the declaration fingerprint already appears
among its active revision tags. -/
def get_latest_revision (c : Config) (st : DominoState) : RunOut × Bool :=
  match findById st c.environment_id with
  | none =>
    ({ cfg := c, st := st, calls := [GatewayCall.getEnvironment c.environment_id], logs := [],
       err := some (PyErr.gatewayError "get_environment") }, false)
  | some e =>
    ({ cfg := c, st := st, calls := [GatewayCall.getEnvironment c.environment_id], logs := [],
       err := none }, e.activeRevisionTags.contains c.config_file_hash)

/-- Model of EnvironmentConfig.restrict_environment_revision: fetch the
remote resource; when a selected revision is present, no restriction marker
exists and the declaration is marked restricted, issue the restrict call
naming the selected revision; otherwise do nothing further. -/
def restrict_environment_revision (c : Config) (st : DominoState) : RunOut :=
  match findById st c.environment_id with
  | none =>
    { cfg := c, st := st, calls := [GatewayCall.getEnvironment c.environment_id], logs := [],
      err := some (PyErr.gatewayError "get_environment") }
  | some e =>
    let restricted := truthyStr e.restrictedRevision
    match e.selectedRevision with
    | none =>
      { cfg := c, st := st, calls := [GatewayCall.getEnvironment c.environment_id], logs := [],
        err := none }
    | some selId =>
      if restricted.isNone && c.is_restricted then
        { cfg := c, st := applyRestrict st c.environment_id selId,
          calls := [GatewayCall.getEnvironment c.environment_id,
                    GatewayCall.restrictEnvironmentRevision c.environment_id selId],
          logs := [LogMsg.debugSelectedRevision selId, LogMsg.debugRestricting], err := none }
      else
        { cfg := c, st := st, calls := [GatewayCall.getEnvironment c.environment_id],
          logs := [LogMsg.debugSelectedRevision selId], err := none }

/-- Model of EnvironmentConfig.create_environment_revision: when the
fingerprint is already among the active revision tags, log that the file is
unchanged; otherwise submit a new revision and run restriction enforcement. -/
def create_environment_revision (c : Config) (st : DominoState) : RunOut :=
  let pr := get_latest_revision c st
  match pr.1.err with
  | some _ => pr.1
  | none =>
    if pr.2 then { pr.1 with logs := pr.1.logs ++ [LogMsg.infoFileUnchanged] }
    else
      (pr.1.thenRun (fun c2 st2 =>
        { cfg := c2, st := applyCreateRevision st2 c2,
          calls := [GatewayCall.createEnvironmentRevision c2.environment_id c2.tags],
          logs := [], err := none })).thenRun restrict_environment_revision

/-! Section: Per-environment processing and the batch loop -/

/-- The body of the try block in process_single_environment: parse, create
if absent, revise if changed, then enforce restriction. -/
def process_environment_steps (loc : String) (doc : ConfigDoc) (fileBytes : List Nat)
    (st : DominoState) : RunOut :=
  (((parse_config_file doc fileBytes (initial_config loc) st).thenRun
      (create_environment_if_not_exist doc fileBytes)).thenRun
    create_environment_revision).thenRun
      restrict_environment_revision

/-- Model of process_single_environment: a missing configuration file is a
logged warning and a skip; otherwise the steps run inside the per-environment
try boundary, and any escaping exception is caught and logged with the
environment name. -/
def process_single_environment (envName : String) (docOpt : Option (ConfigDoc × List Nat))
    (st : DominoState) : RunOut :=
  match docOpt with
  | none =>
    { cfg := initial_config (envName ++ "/environment.yaml"), st := st, calls := [],
      logs := [LogMsg.warnNoConfigFile envName], err := none }
  | some (doc, fileBytes) =>
    let r := process_environment_steps (envName ++ "/environment.yaml") doc fileBytes st
    match r.err with
    | some e => { r with logs := r.logs ++ [LogMsg.errorFailedProcessing envName e], err := none }
    | none => r

/-- Run the batch loop, threading the remote state from one environment to
the next and collecting each per-environment outcome. -/
def runBatch (st : DominoState) : List (String × Option (ConfigDoc × List Nat)) → List RunOut
  | [] => []
  | (nm, d) :: rest =>
    let r := process_single_environment nm d st
    r :: runBatch r.st rest

/-- The outcome of process_all_environments: the process exit code, the
per-environment outcomes, and the batch-level log lines. -/
structure BatchOut where
  exitCode : Nat
  perEnv : List RunOut
  logs : List LogMsg
deriving DecidableEq

/-- Model of process_all_environments: an empty directory listing exits with
code 1; otherwise every listed environment is processed in order and the
process exits with code 0. -/
def process_all_environments (envs : List (String × Option (ConfigDoc × List Nat)))
    (st : DominoState) : BatchOut :=
  if envs = [] then { exitCode := 1, perEnv := [], logs := [LogMsg.errorNoEnvironments] }
  else { exitCode := 0, perEnv := runBatch st envs, logs := [LogMsg.infoBuilding] }

/-! Section: Concrete inputs used by the claim theorems -/

/-- An empty remote platform. -/
def emptyState : DominoState := { environments := [] }

/-- Declaration declaring Organization visibility with no owner id. -/
def docOrgNoOwner : ConfigDoc := { name := some "envA", visibility := some "Organization" }

/-- Declaration with a malformed organization owner id. -/
def docBadOwner : ConfigDoc := { name := some "envB", organizationOwnerId := some "not-hex" }

/-- A configuration object carrying a concrete file location. -/
def cfgAtLoc : Config := initial_config "envX/environment.yaml"

/-- A remote environment whose active revision tags already contain the
fingerprint of the empty document, unrestricted, with a selected revision. -/
def envUnchanged : RemoteEnv :=
  { id := "env-1", name := "demo", activeRevisionTags := [compute_config_file_hash []],
    selectedRevision := some "rev-A", restrictedRevision := none }

/-- Remote platform holding only envUnchanged. -/
def stUnchanged : DominoState := { environments := [envUnchanged] }

/-- Declaration for the existing environment, marked restricted. -/
def docRestricted : ConfigDoc := { name := some "demo", isRestricted := some true }

/-- C1: the claim says a declaration resolving to Organization visibility
without an organizationOwnerId is rejected with no gateway call; evaluating
the code at such a declaration shows the error is logged but processing
continues and create and get-environment gateway calls are issued. -/
theorem c1_org_without_owner_still_calls_gateway :
    (process_single_environment "envA" (some (docOrgNoOwner, [])) emptyState).logs.contains
      LogMsg.errorNoOrgOwner = true ∧
    (process_single_environment "envA" (some (docOrgNoOwner, [])) emptyState).calls.contains
      (GatewayCall.createEnvironment "envA" "Organization" "") = true ∧
    (process_single_environment "envA" (some (docOrgNoOwner, [])) emptyState).calls.contains
      (GatewayCall.getEnvironment "env-0") = true := by decide

/-- C2: the claim says a visibility that title-cases to Organisation is
treated exactly as Organization; evaluating the code shows the declared
value organisation falls through to the invalid-visibility fallback and
becomes Private with a warning, while a declared Organization (with no
owner id) keeps visibility Organization and logs the missing-owner error,
so the two are not treated alike. -/
theorem c2_organisation_spelling_not_normalized :
    (get_environment_visibility { visibility := some "organisation" } cfgAtLoc).1.visibility
      = "Private" ∧
    (get_environment_visibility { visibility := some "organisation" } cfgAtLoc).2
      = [LogMsg.warnInvalidVisibility "envX/environment.yaml"] ∧
    (get_environment_visibility { visibility := some "Organization" } cfgAtLoc).1.visibility
      = "Organization" ∧
    (get_environment_visibility { visibility := some "Organization" } cfgAtLoc).2
      = [LogMsg.errorNoOrgOwner] := by decide

/-- C4: the claim says a malformed organizationOwnerId yields a ConfigError
and zero gateway calls; evaluating the code at such a declaration shows the
error is logged but processing continues and gateway calls, among them the
create call itself, are issued. -/
theorem c4_malformed_owner_id_still_calls_gateway :
    (process_single_environment "envB" (some (docBadOwner, [])) emptyState).logs.contains
      (LogMsg.errorOwnerIdNotRecognised "not-hex") = true ∧
    (process_single_environment "envB" (some (docBadOwner, [])) emptyState).calls.contains
      (GatewayCall.createEnvironment "envB" "Private" "not-hex") = true ∧
    (process_single_environment "envB" (some (docBadOwner, [])) emptyState).calls ≠ [] := by decide

/-- C7 counterexample: an existing environment whose active revision tags
contain the declaration fingerprint, yet processing issues a mutating
restrict-revision call, because restriction enforcement runs even on the
no-op path. -/
theorem c7_noop_path_issues_restrict_call :
    envUnchanged.activeRevisionTags.contains (compute_config_file_hash []) = true ∧
    (process_single_environment "demo" (some (docRestricted, [])) stUnchanged).calls.filter
      isMutating = [GatewayCall.restrictEnvironmentRevision "env-1" "rev-A"] := by decide

/-! Section: Helper lemmas -/

/-- A string surviving the truthiness filter is non-empty. -/
theorem truthyStr_some_ne (o : Option String) (s : String) (h : truthyStr o = some s) :
    s ≠ "" := by
  cases o with
  | none => simp [truthyStr] at h
  | some t =>
    by_cases ht : t = ""
    · simp [truthyStr, ht] at h
    · simp [truthyStr, ht] at h
      subst h
      exact ht

/-! Section: C3 -/

/-- C3: whenever the declaration supplies an organizationOwnerId of exactly
twenty-four hex characters, visibility resolution ends at Private, whatever
visibility value the document declares. -/
theorem c3_valid_owner_id_forces_private (doc : ConfigDoc) (c : Config) (oid : String)
    (hoid : doc.organizationOwnerId = some oid) (hhex : isHex24 oid = true) :
    (get_environment_visibility doc c).1.visibility = "Private" := by
  have hne : oid ≠ "" := by
    intro h
    rw [h] at hhex
    simp [isHex24] at hhex
  have htr : truthyStr doc.organizationOwnerId = some oid := by
    rw [hoid]
    simp [truthyStr, hne]
  have hre : regexSearchHex24 oid = true := by
    simp [regexSearchHex24, hhex]
  simp [get_environment_visibility, htr, hre, possible_visibility_types]

/-- Witness for C3 at a concrete declaration declaring Global visibility
with a valid owner id. -/
theorem c3_witness :
    ({ visibility := some "Global",
       organizationOwnerId := some "0123456789abcdef01234567" } : ConfigDoc).organizationOwnerId
      = some "0123456789abcdef01234567" ∧
    isHex24 "0123456789abcdef01234567" = true ∧
    (get_environment_visibility
      { visibility := some "Global", organizationOwnerId := some "0123456789abcdef01234567" }
      cfgAtLoc).1.visibility = "Private" :=
  ⟨rfl, by decide,
    c3_valid_owner_id_forces_private _ cfgAtLoc "0123456789abcdef01234567" rfl (by decide)⟩

/-! Section: C6 -/

/-- C6: the content fingerprint is a deterministic function of the document
bytes alone; two byte-identical documents, wherever they live in the file
system, hash to the identical hex digest string. -/
theorem c6_fingerprint_deterministic (fs1 fs2 : String → List Nat) (loc1 loc2 : String)
    (h : fs1 loc1 = fs2 loc2) :
    compute_config_file_hash_at fs1 loc1 = compute_config_file_hash_at fs2 loc2 := by
  simp [compute_config_file_hash_at, h]

/-- Witness for C6: the same bytes under two different paths. -/
theorem c6_witness :
    compute_config_file_hash_at (fun _ => [0, 1, 2]) "dir-a/environment.yaml"
      = compute_config_file_hash_at (fun _ => [0, 1, 2]) "dir-b/environment.yaml" :=
  c6_fingerprint_deterministic _ _ _ _ rfl

/-! Section: C10 -/

/-- C10: when the remote resource reports no selected revision, restriction
enforcement only performs the read, raises nothing, changes nothing and
issues no restrict call, whatever isRestricted and the marker say. -/
theorem c10_no_selected_revision_is_silent (c : Config) (st : DominoState) (e : RemoteEnv)
    (hfind : findById st c.environment_id = some e) (hsel : e.selectedRevision = none) :
    restrict_environment_revision c st =
      { cfg := c, st := st, calls := [GatewayCall.getEnvironment c.environment_id],
        logs := [], err := none } := by
  simp [restrict_environment_revision, hfind, hsel]

/-- Witness for C10: a concrete unrestricted environment with no selected
revision and a declaration marked restricted. -/
theorem c10_witness :
    restrict_environment_revision
      { environment_config_location := "d/environment.yaml", environment_id := "env-5",
        is_restricted := true }
      { environments := [{ id := "env-5", name := "e5", activeRevisionTags := [],
                           selectedRevision := none, restrictedRevision := none }] } =
      { cfg := { environment_config_location := "d/environment.yaml", environment_id := "env-5",
                 is_restricted := true },
        st := { environments := [{ id := "env-5", name := "e5", activeRevisionTags := [],
                                   selectedRevision := none, restrictedRevision := none }] },
        calls := [GatewayCall.getEnvironment "env-5"], logs := [], err := none } :=
  c10_no_selected_revision_is_silent _ _
    { id := "env-5", name := "e5", activeRevisionTags := [],
      selectedRevision := none, restrictedRevision := none } (by decide) rfl

/-! Section: C8 -/

/-- Gateway calls issued by n successive runs of restriction enforcement,
threading the remote state from one run to the next. -/
def iterRestrictCalls (c : Config) : Nat → DominoState → List GatewayCall
  | 0, _ => []
  | n + 1, st =>
    let r := restrict_environment_revision c st
    r.calls ++ iterRestrictCalls c n r.st

/-- A single run of restriction enforcement on an environment already
carrying a restriction marker performs only the read and leaves the remote
state unchanged. -/
theorem restrict_marker_single_run (c : Config) (st : DominoState) (e : RemoteEnv)
    (hfind : findById st c.environment_id = some e)
    (hmark : (truthyStr e.restrictedRevision).isSome = true) :
    restrict_environment_revision c st =
      { cfg := c, st := st, calls := [GatewayCall.getEnvironment c.environment_id],
        logs := (match e.selectedRevision with
                 | some selId => [LogMsg.debugSelectedRevision selId]
                 | none => []), err := none } := by
  unfold restrict_environment_revision
  rw [hfind]
  cases hsel : e.selectedRevision with
  | none => simp [hsel]
  | some selId =>
    have hni : (truthyStr e.restrictedRevision).isNone = false := by
      cases h2 : truthyStr e.restrictedRevision with
      | none => rw [h2] at hmark; simp at hmark
      | some v => simp
    simp [hsel, hni]

/-- C8: restriction is one-way and idempotent: with a restriction marker in
place, any number of successive runs of restriction enforcement issues zero
restrict calls; and any restrict call a run issues requires the marker to be
absent and isRestricted set, and names the selected revision of the remote
resource. -/
theorem c8_restriction_one_way (c : Config) (st : DominoState) (e : RemoteEnv)
    (hfind : findById st c.environment_id = some e) :
    ((truthyStr e.restrictedRevision).isSome = true →
      ∀ n, (iterRestrictCalls c n st).filter isRestrictCall = []) ∧
    (∀ call ∈ (restrict_environment_revision c st).calls, isRestrictCall call = true →
      truthyStr e.restrictedRevision = none ∧ c.is_restricted = true ∧
      ∃ rid, e.selectedRevision = some rid ∧
        call = GatewayCall.restrictEnvironmentRevision c.environment_id rid) := by
  constructor
  · intro hmark n
    induction n with
    | zero => rfl
    | succ k ih =>
      show ((restrict_environment_revision c st).calls ++
        iterRestrictCalls c k (restrict_environment_revision c st).st).filter isRestrictCall = []
      rw [restrict_marker_single_run c st e hfind hmark]
      simp only [List.filter_append, ih]
      cases e.selectedRevision <;> simp [isRestrictCall]
  · intro call hmem hres
    unfold restrict_environment_revision at hmem
    rw [hfind] at hmem
    cases hsel : e.selectedRevision with
    | none =>
      simp [hsel] at hmem
      rw [hmem] at hres
      simp [isRestrictCall] at hres
    | some selId =>
      cases hcond : ((truthyStr e.restrictedRevision).isNone && c.is_restricted) with
      | true =>
        simp [hsel, hcond] at hmem
        rcases hmem with hmem | hmem
        · rw [hmem] at hres
          simp [isRestrictCall] at hres
        · have hand := hcond
          rw [Bool.and_eq_true] at hand
          obtain ⟨h1, h2⟩ := hand
          exact ⟨Option.isNone_iff_eq_none.mp h1, h2, selId, rfl, hmem⟩
      | false =>
        simp [hsel, hcond] at hmem
        rw [hmem] at hres
        simp [isRestrictCall] at hres

/-- Witness for C8: three runs over an environment that already carries a
restriction marker issue no restrict call. -/
theorem c8_witness :
    (iterRestrictCalls
      { environment_config_location := "d/environment.yaml", environment_id := "env-9",
        is_restricted := true }
      3
      { environments := [{ id := "env-9", name := "e9", activeRevisionTags := [],
                           selectedRevision := some "rev-S",
                           restrictedRevision := some "rev-R" }] }).filter isRestrictCall = [] :=
  (c8_restriction_one_way
    { environment_config_location := "d/environment.yaml", environment_id := "env-9",
      is_restricted := true }
    { environments := [{ id := "env-9", name := "e9", activeRevisionTags := [],
                         selectedRevision := some "rev-S",
                         restrictedRevision := some "rev-R" }] }
    { id := "env-9", name := "e9", activeRevisionTags := [],
      selectedRevision := some "rev-S", restrictedRevision := some "rev-R" }
    (by decide)).1 (by decide) 3

/-! Section: C5 -/

/-- C5: cluster resolution title-cases every declared entry, keeps exactly
the entries landing in the accepted set, in declared order and without
deduplication, and logs one warning naming precisely the dropped entries
when there are any; in particular spark, bogus, RAY resolves to Spark, Ray
with a warning naming Bogus. -/
theorem c5_cluster_resolution :
    (∀ (doc : ConfigDoc) (c : Config),
      (get_supported_clusters doc c).1.supported_clusters
        = (((truthyList doc.supportedClusters).getD []).map pyTitle).filter
            (fun sc => possible_cluster_types.contains sc) ∧
      (get_supported_clusters doc c).2
        = (if (((truthyList doc.supportedClusters).getD []).map pyTitle).filter
                (fun sc => !(possible_cluster_types.contains sc)) = [] then ([] : List LogMsg)
           else [LogMsg.warnInvalidClusters
                  ((((truthyList doc.supportedClusters).getD []).map pyTitle).filter
                    (fun sc => !(possible_cluster_types.contains sc)))])) ∧
    (get_supported_clusters { supportedClusters := some ["spark", "bogus", "RAY"] }
      cfgAtLoc).1.supported_clusters = ["Spark", "Ray"] ∧
    (get_supported_clusters { supportedClusters := some ["spark", "bogus", "RAY"] }
      cfgAtLoc).2 = [LogMsg.warnInvalidClusters ["Bogus"]] := by
  refine ⟨fun doc c => ?_, by decide, by decide⟩
  simp only [get_supported_clusters]
  cases hl : ((truthyList doc.supportedClusters).getD []).map pyTitle with
  | nil => simp [hl]
  | cons b m =>
    cases hi : (b :: m).filter (fun sc => !(possible_cluster_types.contains sc)) with
    | nil =>
      have hall : ∀ sc ∈ b :: m, sc ∈ possible_cluster_types := by
        intro sc hsc
        have h2 := List.filter_eq_nil_iff.mp hi sc hsc
        simpa using h2
      have hfe : (b :: m).filter (fun sc => decide (sc ∈ possible_cluster_types)) = b :: m :=
        List.filter_eq_self.mpr (fun a ha => by simpa using hall a ha)
      simp [hl, hi, hfe]
    | cons b2 m2 =>
      simp [hl, hi]

/-! Section: C9 -/

/-- The per-environment boundary always swallows the exception: the caught
run reports no escaping error. -/
theorem process_single_err_none (nm : String) (d : Option (ConfigDoc × List Nat))
    (st : DominoState) : (process_single_environment nm d st).err = none := by
  cases d with
  | none => rfl
  | some p =>
    obtain ⟨doc, fileBytes⟩ := p
    simp only [process_single_environment]
    cases he : (process_environment_steps (nm ++ "/environment.yaml") doc fileBytes st).err with
    | none => simp [he]
    | some e => simp [he]

/-- The batch loop produces exactly one outcome per listed environment. -/
theorem runBatch_length (l : List (String × Option (ConfigDoc × List Nat))) :
    ∀ st, (runBatch st l).length = l.length := by
  induction l with
  | nil => intro st; rfl
  | cons hd tl ih =>
    intro st
    obtain ⟨nm, d⟩ := hd
    simp [runBatch, ih]

/-- No outcome of the batch loop carries an escaping error. -/
theorem runBatch_err_none (l : List (String × Option (ConfigDoc × List Nat))) :
    ∀ st r, r ∈ runBatch st l → r.err = none := by
  induction l with
  | nil => intro st r hr; simp [runBatch] at hr
  | cons hd tl ih =>
    intro st r hr
    obtain ⟨nm, d⟩ := hd
    simp only [runBatch] at hr
    rcases List.mem_cons.mp hr with h | h
    · rw [h]; exact process_single_err_none nm d st
    · exact ih _ r h

/-- C9: per-environment failure isolation: with a non-empty listing the
batch exits with code 0 and yields one caught (error-free) outcome per
environment; and when the steps of one environment raise an exception, the
per-environment boundary logs it tagged with the name of that environment after
the logs emitted so far. -/
theorem c9_failure_isolation :
    (∀ (envs : List (String × Option (ConfigDoc × List Nat))) (st : DominoState), envs ≠ [] →
      (process_all_environments envs st).exitCode = 0 ∧
      (process_all_environments envs st).perEnv.length = envs.length ∧
      ∀ r ∈ (process_all_environments envs st).perEnv, r.err = none) ∧
    (∀ (nm : String) (doc : ConfigDoc) (fileBytes : List Nat) (st : DominoState) (e : PyErr),
      (process_environment_steps (nm ++ "/environment.yaml") doc fileBytes st).err = some e →
      (process_single_environment nm (some (doc, fileBytes)) st).logs =
        (process_environment_steps (nm ++ "/environment.yaml") doc fileBytes st).logs ++
          [LogMsg.errorFailedProcessing nm e]) := by
  constructor
  · intro envs st hne
    unfold process_all_environments
    rw [if_neg hne]
    exact ⟨rfl, runBatch_length envs st, runBatch_err_none envs st⟩
  · intro nm doc fileBytes st e he
    simp only [process_single_environment]
    simp [he]

/-- A declaration whose only workspace tool lacks the required title key:
building it raises KeyError. -/
def docBadTool : ConfigDoc :=
  { name := some "envC", pluggableWorkspaceTools := some [("toolA", { iconUrl := some "i" })] }

/-- Witness for C9: a two-environment batch whose second member raises
inside the steps still exits 0, and the error is logged with that
name of that environment. -/
theorem c9_witness :
    (process_all_environments [("a", none), ("b", some (docBadTool, []))] emptyState).exitCode
      = 0 ∧
    (process_single_environment "b" (some (docBadTool, [])) emptyState).logs =
      (process_environment_steps ("b" ++ "/environment.yaml") docBadTool [] emptyState).logs ++
        [LogMsg.errorFailedProcessing "b" (PyErr.keyError "title")] :=
  ⟨(c9_failure_isolation.1 [("a", none), ("b", some (docBadTool, []))] emptyState
      (by decide)).1,
   c9_failure_isolation.2 "b" docBadTool [] emptyState (PyErr.keyError "title") (by decide)⟩

/-! Section: C7: machinery -/

/-- Visibility resolution leaves the declared name untouched. -/
theorem gev_preserves_name (doc : ConfigDoc) (c : Config) :
    (get_environment_visibility doc c).1.name = c.name := by
  simp only [get_environment_visibility]
  repeat' split
  all_goals rfl

/-- Visibility resolution leaves the environment id untouched. -/
theorem gev_preserves_environment_id (doc : ConfigDoc) (c : Config) :
    (get_environment_visibility doc c).1.environment_id = c.environment_id := by
  simp only [get_environment_visibility]
  repeat' split
  all_goals rfl

/-- Visibility resolution leaves the tag list untouched. -/
theorem gev_preserves_tags (doc : ConfigDoc) (c : Config) :
    (get_environment_visibility doc c).1.tags = c.tags := by
  simp only [get_environment_visibility]
  repeat' split
  all_goals rfl

/-- Visibility resolution leaves the isRestricted flag untouched. -/
theorem gev_preserves_is_restricted (doc : ConfigDoc) (c : Config) :
    (get_environment_visibility doc c).1.is_restricted = c.is_restricted := by
  simp only [get_environment_visibility]
  repeat' split
  all_goals rfl

/-- Visibility resolution leaves the fingerprint field untouched. -/
theorem gev_preserves_config_file_hash (doc : ConfigDoc) (c : Config) :
    (get_environment_visibility doc c).1.config_file_hash = c.config_file_hash := by
  simp only [get_environment_visibility]
  repeat' split
  all_goals rfl

/-- Cluster resolution leaves the declared name untouched. -/
theorem gsc_preserves_name (doc : ConfigDoc) (c : Config) :
    (get_supported_clusters doc c).1.name = c.name := by
  simp only [get_supported_clusters]
  repeat' split
  all_goals rfl

/-- Cluster resolution leaves the environment id untouched. -/
theorem gsc_preserves_environment_id (doc : ConfigDoc) (c : Config) :
    (get_supported_clusters doc c).1.environment_id = c.environment_id := by
  simp only [get_supported_clusters]
  repeat' split
  all_goals rfl

/-- Cluster resolution leaves the tag list untouched. -/
theorem gsc_preserves_tags (doc : ConfigDoc) (c : Config) :
    (get_supported_clusters doc c).1.tags = c.tags := by
  simp only [get_supported_clusters]
  repeat' split
  all_goals rfl

/-- Cluster resolution leaves the isRestricted flag untouched. -/
theorem gsc_preserves_is_restricted (doc : ConfigDoc) (c : Config) :
    (get_supported_clusters doc c).1.is_restricted = c.is_restricted := by
  simp only [get_supported_clusters]
  repeat' split
  all_goals rfl

/-- Cluster resolution leaves the fingerprint field untouched. -/
theorem gsc_preserves_config_file_hash (doc : ConfigDoc) (c : Config) :
    (get_supported_clusters doc c).1.config_file_hash = c.config_file_hash := by
  simp only [get_supported_clusters]
  repeat' split
  all_goals rfl

/-- The configuration produced by a successful parse_config_file run. -/
def loaded_config (doc : ConfigDoc) (fileBytes : List Nat) (c : Config)
    (ws : List WorkspaceToolOut) : Config :=
  { (get_supported_clusters doc (get_environment_visibility doc (load_scalar_fields doc c)).1).1
    with
    workspace_tools := ws,
    config_file_hash := compute_config_file_hash fileBytes,
    tags := (get_supported_clusters doc
      (get_environment_visibility doc (load_scalar_fields doc c)).1).1.tags
      ++ [compute_config_file_hash fileBytes] }

/-- The log lines emitted by a successful parse_config_file run. -/
def parse_logs (doc : ConfigDoc) (c : Config) : List LogMsg :=
  (get_environment_visibility doc (load_scalar_fields doc c)).2 ++
  (get_supported_clusters doc (get_environment_visibility doc (load_scalar_fields doc c)).1).2

/-- When workspace tool assembly succeeds, parse_config_file returns the
loaded configuration with no gateway call, no state change and no error. -/
theorem parse_config_file_ok (doc : ConfigDoc) (fileBytes : List Nat) (c : Config)
    (st : DominoState) (ws : List WorkspaceToolOut)
    (htools : build_workspace_tools_list (doc.pluggableWorkspaceTools.getD []) = Except.ok ws) :
    parse_config_file doc fileBytes c st =
      { cfg := loaded_config doc fileBytes c ws, st := st, calls := [],
        logs := parse_logs doc c, err := none } := by
  unfold parse_config_file build_workspace_tools loaded_config parse_logs
  rw [htools]

/-- The loaded configuration carries the declared (truthiness-filtered)
name. -/
theorem loaded_config_name (doc : ConfigDoc) (fileBytes : List Nat) (c : Config)
    (ws : List WorkspaceToolOut) :
    (loaded_config doc fileBytes c ws).name = (truthyStr doc.name).getD "" := by
  simp [loaded_config, gsc_preserves_name, gev_preserves_name, load_scalar_fields]

/-- The loaded configuration keeps the environment id of the fresh
configuration object. -/
theorem loaded_config_environment_id (doc : ConfigDoc) (fileBytes : List Nat) (c : Config)
    (ws : List WorkspaceToolOut) :
    (loaded_config doc fileBytes c ws).environment_id = c.environment_id := by
  simp [loaded_config, gsc_preserves_environment_id, gev_preserves_environment_id,
    load_scalar_fields]

/-- The loaded configuration records isRestricted exactly when the document
declares it true. -/
theorem loaded_config_is_restricted (doc : ConfigDoc) (fileBytes : List Nat) (c : Config)
    (ws : List WorkspaceToolOut) :
    (loaded_config doc fileBytes c ws).is_restricted = decide (doc.isRestricted = some true) := by
  simp only [loaded_config]
  rw [show (∀ (x : Config) (w : List WorkspaceToolOut) (h : String) (t : List String),
    ({ x with workspace_tools := w, config_file_hash := h, tags := t } : Config).is_restricted
      = x.is_restricted) from fun x w h t => rfl]
  rw [gsc_preserves_is_restricted, gev_preserves_is_restricted]
  simp [load_scalar_fields]

/-- When a remote environment is found for the stored id, the mutating calls
of restriction enforcement are exactly the restrict call gated on the marker
being absent and the isRestricted flag, naming the selected revision; and no
error escapes. -/
theorem restrict_calls_cases (c : Config) (st : DominoState) (e : RemoteEnv)
    (hfind : findById st c.environment_id = some e) :
    (restrict_environment_revision c st).calls.filter isMutating
      = (match e.selectedRevision with
         | some rid =>
           if ((truthyStr e.restrictedRevision).isNone && c.is_restricted) = true
           then [GatewayCall.restrictEnvironmentRevision c.environment_id rid] else []
         | none => []) ∧
    (restrict_environment_revision c st).err = none := by
  unfold restrict_environment_revision
  rw [hfind]
  cases hsel : e.selectedRevision with
  | none => simp [hsel, isMutating]
  | some selId =>
    cases hcond : ((truthyStr e.restrictedRevision).isNone && c.is_restricted) with
    | true => simp [hsel, hcond, isMutating]
    | false => simp [hsel, hcond, isMutating]

/-- When the name is present and an environment with that name exists under
a non-empty id, create_environment_if_not_exist only performs the listing
and records the id. -/
theorem cine_exists (doc : ConfigDoc) (fileBytes : List Nat) (c : Config) (st : DominoState)
    (e : RemoteEnv) (hnm : c.name ≠ "") (hfind : findByName st c.name = some e)
    (hid : e.id ≠ "") :
    create_environment_if_not_exist doc fileBytes c st =
      { cfg := { c with environment_id := e.id }, st := st,
        calls := [GatewayCall.environmentsList],
        logs := [LogMsg.infoEnvExists c.name e.id], err := none } := by
  unfold create_environment_if_not_exist check_environment_exists RunOut.thenRun
  rw [if_neg hnm, hfind]
  simp [hid]

/-- When the fingerprint is among the active revision tags,
create_environment_revision only performs the read and logs that the file is
unchanged. -/
theorem cer_unchanged (c : Config) (st : DominoState) (e : RemoteEnv)
    (hfind : findById st c.environment_id = some e)
    (htag : e.activeRevisionTags.contains c.config_file_hash = true) :
    create_environment_revision c st =
      { cfg := c, st := st, calls := [GatewayCall.getEnvironment c.environment_id],
        logs := [LogMsg.infoFileUnchanged], err := none } := by
  unfold create_environment_revision get_latest_revision
  rw [hfind]
  simp only [htag]
  simp

/-- C7 (amended): for an existing environment whose declaration fingerprint
is already among the active revision tags of the remote resource, reconciliation
issues no create and no create-revision call; restriction enforcement still
runs after the no-op, so the mutating calls are exactly one restrict call
naming the selected revision when the declaration is marked restricted, no
restriction marker exists and a selected revision is present, and zero
mutating calls otherwise. -/
theorem c7_unchanged_declaration_mutating_calls
    (nmDir : String) (doc : ConfigDoc) (fileBytes : List Nat) (st : DominoState)
    (nm : String) (e : RemoteEnv) (ws : List WorkspaceToolOut)
    (hname : truthyStr doc.name = some nm)
    (hfindN : findByName st nm = some e)
    (hid : e.id ≠ "")
    (hfindI : findById st e.id = some e)
    (htags : e.activeRevisionTags.contains (compute_config_file_hash fileBytes) = true)
    (htools : build_workspace_tools_list (doc.pluggableWorkspaceTools.getD []) = Except.ok ws) :
    (process_single_environment nmDir (some (doc, fileBytes)) st).calls.filter isMutating
      = (match e.selectedRevision with
         | some rid =>
           if truthyStr e.restrictedRevision = none ∧ doc.isRestricted = some true
           then [GatewayCall.restrictEnvironmentRevision e.id rid] else []
         | none => []) := by
  have hnmne : nm ≠ "" := truthyStr_some_ne doc.name nm hname
  have hLname :
      (loaded_config doc fileBytes (initial_config (nmDir ++ "/environment.yaml")) ws).name
        = nm := by
    rw [loaded_config_name, hname]
    rfl
  simp only [process_single_environment, process_environment_steps]
  rw [parse_config_file_ok doc fileBytes (initial_config (nmDir ++ "/environment.yaml")) st ws
    htools]
  simp only [RunOut.thenRun]
  rw [cine_exists doc fileBytes
    (loaded_config doc fileBytes (initial_config (nmDir ++ "/environment.yaml")) ws) st e
    (by rw [hLname]; exact hnmne) (by rw [hLname]; exact hfindN) hid]
  simp only [RunOut.thenRun]
  rw [cer_unchanged
    { loaded_config doc fileBytes (initial_config (nmDir ++ "/environment.yaml")) ws with
      environment_id := e.id } st e (hfindI : findById st e.id = some e)
    (htags : e.activeRevisionTags.contains (compute_config_file_hash fileBytes) = true)]
  simp only [RunOut.thenRun]
  obtain ⟨hrc, hre⟩ := restrict_calls_cases
    { loaded_config doc fileBytes (initial_config (nmDir ++ "/environment.yaml")) ws with
      environment_id := e.id } st e (hfindI : findById st e.id = some e)
  rw [hre]
  simp only [List.filter_append, hrc]
  cases hsel : e.selectedRevision with
  | none => simp [isMutating]
  | some rid =>
    rw [show ({ loaded_config doc fileBytes (initial_config (nmDir ++ "/environment.yaml")) ws
        with environment_id := e.id } : Config).is_restricted
      = (loaded_config doc fileBytes (initial_config (nmDir ++ "/environment.yaml"))
          ws).is_restricted from rfl]
    rw [loaded_config_is_restricted]
    simp [isMutating, Bool.and_eq_true, Option.isNone_iff_eq_none, decide_eq_true_eq]

/-- Witness for C7 at the concrete unchanged environment: the only mutating
call is the restrict call naming the selected revision. -/
theorem c7_witness :
    (process_single_environment "demo" (some (docRestricted, [])) stUnchanged).calls.filter
      isMutating = [GatewayCall.restrictEnvironmentRevision "env-1" "rev-A"] := by
  have h := c7_unchanged_declaration_mutating_calls "demo" docRestricted [] stUnchanged
    "demo" envUnchanged [] (by decide) (by rfl) (by decide) (by rfl) (by rfl) (by rfl)
  rw [h]
  decide
